import Mathlib

/-!
Verification of the morphing engine of the `sdc` repository: position
samplers (`src/utils/geometry.ts`), the shader-driven particle paths
(`src/components/Foliage.tsx`, `src/components/BottomParticles.tsx`),
and the instanced rigid paths (`src/components/BottomGifts.tsx`, the
ornament group component). Numeric code is embedded over the reals;
calls to the random generator become explicit arguments meant to range
over the interval from 0 inclusive to 1 exclusive.
-/

/-- A 3-component vector, mirroring THREE.Vector3 and GLSL vec3. -/
@[ext]
structure Vec3 where
  x : ℝ
  y : ℝ
  z : ℝ

/-- Componentwise vector addition. -/
def Vec3.add (u v : Vec3) : Vec3 :=
  Vec3.mk (u.x + v.x) (u.y + v.y) (u.z + v.z)

/-- Scalar linear interpolation, as in GLSL mix and THREE lerp:
a + (b - a) * t. -/
def lerpR (a b t : ℝ) : ℝ := a + (b - a) * t

/-- Componentwise linear interpolation, as in GLSL mix(vec3, vec3, float)
and THREE.Vector3.lerpVectors. -/
def vlerp (u v : Vec3) (t : ℝ) : Vec3 :=
  Vec3.mk (lerpR u.x v.x t) (lerpR u.y v.y t) (lerpR u.z v.z t)

/-- Tree cone height, from src/utils/geometry.ts. -/
def TREE_HEIGHT : ℝ := 14

/-- Tree cone base radius, from src/utils/geometry.ts. -/
def TREE_RADIUS_BASE : ℝ := 5.5

/-- Scatter sphere radius, from src/utils/geometry.ts. -/
def SCATTER_RADIUS : ℝ := 25

/-- getTreePosition from src/utils/geometry.ts. The three arguments are
the successive Math.random() draws. -/
noncomputable def getTreePosition (u1 u2 u3 : ℝ) : Vec3 :=
  let y := u1 * TREE_HEIGHT - TREE_HEIGHT / 2
  let progressUp := (y + TREE_HEIGHT / 2) / TREE_HEIGHT
  let currentRadius := TREE_RADIUS_BASE * (1 - progressUp)
  let angle := u2 * Real.pi * 2
  let r := Real.sqrt u3 * currentRadius
  Vec3.mk (r * Real.cos angle) y (r * Real.sin angle)

/-- getScatterPosition from src/utils/geometry.ts. The three arguments
are the successive Math.random() draws. -/
noncomputable def getScatterPosition (u1 u2 u3 : ℝ) : Vec3 :=
  let r := u1 ^ ((1 : ℝ) / 3) * SCATTER_RADIUS
  let theta := u2 * Real.pi * 2
  let phi := Real.arccos (2 * u3 - 1)
  Vec3.mk (r * Real.sin phi * Real.cos theta)
          (r * Real.sin phi * Real.sin theta)
          (r * Real.cos phi)

/-- Claim C9: every point returned by the sphere sampler getScatterPosition
lies within Euclidean distance SCATTER_RADIUS = 25 of the origin, for every
possible sequence of random draws. -/
theorem getScatterPosition_within_radius (u1 u2 u3 : ℝ)
    (h1 : 0 ≤ u1) (h1' : u1 < 1) :
    Real.sqrt ((getScatterPosition u1 u2 u3).x ^ 2 +
      (getScatterPosition u1 u2 u3).y ^ 2 +
      (getScatterPosition u1 u2 u3).z ^ 2) ≤ SCATTER_RADIUS := by
  have hcs1 := Real.sin_sq_add_cos_sq (u2 * Real.pi * 2)
  have hcs2 := Real.sin_sq_add_cos_sq (Real.arccos (2 * u3 - 1))
  have hr0 : (0 : ℝ) ≤ u1 ^ ((1 : ℝ) / 3) * SCATTER_RADIUS := by
    have := Real.rpow_nonneg h1 ((1 : ℝ) / 3)
    have h25 : (0 : ℝ) ≤ SCATTER_RADIUS := by norm_num [SCATTER_RADIUS]
    exact mul_nonneg this h25
  have harg : (getScatterPosition u1 u2 u3).x ^ 2 +
      (getScatterPosition u1 u2 u3).y ^ 2 +
      (getScatterPosition u1 u2 u3).z ^ 2 =
      (u1 ^ ((1 : ℝ) / 3) * SCATTER_RADIUS) ^ 2 := by
    simp only [getScatterPosition]
    linear_combination
      ((u1 ^ ((1 : ℝ) / 3) * SCATTER_RADIUS) *
        Real.sin (Real.arccos (2 * u3 - 1))) ^ 2 * hcs1 +
      (u1 ^ ((1 : ℝ) / 3) * SCATTER_RADIUS) ^ 2 * hcs2
  rw [harg, Real.sqrt_sq hr0]
  have hle1 : u1 ^ ((1 : ℝ) / 3) ≤ 1 :=
    Real.rpow_le_one h1 (le_of_lt h1') (by norm_num)
  have h25 : (0 : ℝ) ≤ SCATTER_RADIUS := by norm_num [SCATTER_RADIUS]
  exact mul_le_of_le_one_left h25 hle1

/-- Witness for C9: the sampler at the concrete draw sequence (0, 0, 0)
stays within the scatter radius. -/
theorem getScatterPosition_within_radius_witness :
    Real.sqrt ((getScatterPosition 0 0 0).x ^ 2 +
      (getScatterPosition 0 0 0).y ^ 2 +
      (getScatterPosition 0 0 0).z ^ 2) ≤ SCATTER_RADIUS :=
  getScatterPosition_within_radius 0 0 0 (by norm_num) (by norm_num)

/-- Claim C10: every point (x, y, z) returned by the cone sampler
getTreePosition has y in the interval from -7 inclusive to 7 exclusive and
horizontal distance sqrt(x^2 + z^2) at most 5.5 * (1 - (y + 7)/14), for
every possible sequence of random draws. -/
theorem getTreePosition_inside_cone (u1 u2 u3 : ℝ)
    (h1 : 0 ≤ u1) (h1' : u1 < 1) (h3 : 0 ≤ u3) (h3' : u3 < 1) :
    (-7 ≤ (getTreePosition u1 u2 u3).y ∧ (getTreePosition u1 u2 u3).y < 7) ∧
    Real.sqrt ((getTreePosition u1 u2 u3).x ^ 2 +
      (getTreePosition u1 u2 u3).z ^ 2) ≤
      5.5 * (1 - ((getTreePosition u1 u2 u3).y + 7) / 14) := by
  have hy : (getTreePosition u1 u2 u3).y = u1 * 14 - 7 := by
    simp only [getTreePosition, TREE_HEIGHT]
    norm_num
  constructor
  · constructor
    · rw [hy]; linarith
    · rw [hy]; linarith
  · have hcs := Real.sin_sq_add_cos_sq (u2 * Real.pi * 2)
    have hR : (0 : ℝ) ≤ 5.5 * (1 - u1) := by nlinarith
    have hA0 : 0 ≤ Real.sqrt u3 := Real.sqrt_nonneg u3
    have hA1 : Real.sqrt u3 ≤ 1 := by
      have hs := Real.sqrt_le_sqrt (le_of_lt h3')
      simpa [Real.sqrt_one] using hs
    have harg : (getTreePosition u1 u2 u3).x ^ 2 +
        (getTreePosition u1 u2 u3).z ^ 2 =
        (Real.sqrt u3 * (5.5 * (1 - u1))) ^ 2 := by
      simp only [getTreePosition, TREE_HEIGHT, TREE_RADIUS_BASE]
      linear_combination
        (Real.sqrt u3 *
          (5.5 * (1 - (u1 * 14 - 14 / 2 + 14 / 2) / 14))) ^ 2 * hcs
    rw [harg, Real.sqrt_sq (mul_nonneg hA0 hR), hy]
    have hmain : Real.sqrt u3 * (5.5 * (1 - u1)) ≤ 5.5 * (1 - u1) :=
      mul_le_of_le_one_left hR hA1
    have heq : 5.5 * (1 - (u1 * 14 - 7 + 7) / 14) = 5.5 * (1 - u1) := by
      ring
    calc Real.sqrt u3 * (5.5 * (1 - u1)) ≤ 5.5 * (1 - u1) := hmain
      _ = 5.5 * (1 - (u1 * 14 - 7 + 7) / 14) := heq.symm

/-- Witness for C10: the sampler at the concrete draw sequence (0, 0, 0)
lands inside the cone. -/
theorem getTreePosition_inside_cone_witness :
    (-7 ≤ (getTreePosition 0 0 0).y ∧ (getTreePosition 0 0 0).y < 7) ∧
    Real.sqrt ((getTreePosition 0 0 0).x ^ 2 +
      (getTreePosition 0 0 0).z ^ 2) ≤
      5.5 * (1 - ((getTreePosition 0 0 0).y + 7) / 14) :=
  getTreePosition_inside_cone 0 0 0 (by norm_num) (by norm_num)
    (by norm_num) (by norm_num)

/-- easeInOutCubic, as written identically in the Foliage.tsx and
BottomParticles.tsx vertex shaders. -/
noncomputable def easeInOutCubic (x : ℝ) : ℝ :=
  if x < 0.5 then 4 * x * x * x else 1 - (-2 * x + 2) ^ (3 : ℕ) / 2

/-- GLSL mod(x, y): x minus y times the floor of x / y. -/
noncomputable def glslMod (x y : ℝ) : ℝ := x - y * (Int.floor (x / y) : ℝ)

/-- The per-point position computed by the Foliage.tsx vertex shader main:
eased mix of the scatter and tree attribute positions, plus the wind and
jitter offsets. -/
noncomputable def foliageVertexPos (scatter tree : Vec3)
    (aRandom uTime uProgress : ℝ) : Vec3 :=
  let t := easeInOutCubic uProgress
  let pos := vlerp scatter tree t
  let noiseFreq := lerpR 0.5 2.5 t
  let noiseAmp := lerpR 0.8 0.15 t
  let jitter := Real.sin (uTime * 5 + aRandom * 100) * 0.05
  Vec3.mk (pos.x + Real.sin (uTime * noiseFreq + aRandom * 10) * noiseAmp)
          (pos.y + Real.cos (uTime * noiseFreq * 0.8 + aRandom * 10) * noiseAmp + jitter)
          (pos.z + Real.sin (uTime * noiseFreq * 1.2 + aRandom * 10) * noiseAmp)

/-- The wind and jitter offset terms of the Foliage.tsx vertex shader,
written out separately from the interpolated base position. -/
noncomputable def foliageWind (aRandom uTime uProgress : ℝ) : Vec3 :=
  let t := easeInOutCubic uProgress
  let noiseFreq := lerpR 0.5 2.5 t
  let noiseAmp := lerpR 0.8 0.15 t
  let jitter := Real.sin (uTime * 5 + aRandom * 100) * 0.05
  Vec3.mk (Real.sin (uTime * noiseFreq + aRandom * 10) * noiseAmp)
          (Real.cos (uTime * noiseFreq * 0.8 + aRandom * 10) * noiseAmp + jitter)
          (Real.sin (uTime * noiseFreq * 1.2 + aRandom * 10) * noiseAmp)

/-- The final per-point position computed by the BottomParticles.tsx vertex
shader main: the base position raised by the cyclic rise offset, then mixed
with the scatter position under the eased progress. -/
noncomputable def starVertexFinalPos (scatter base : Vec3)
    (aRandom aSpeed uTime uProgress : ℝ) : Vec3 :=
  let rise := glslMod (uTime * aSpeed * 2 + aRandom * 10) 4
  let animatedBase := Vec3.mk base.x (base.y + rise) base.z
  let t := easeInOutCubic uProgress
  vlerp scatter animatedBase t

/-- Claim C2: in the shader-driven particle path, the easing applied before
mixing is exactly t = (p < 0.5 ? 4p^3 : 1 - (-2p + 2)^3 / 2), and the base
(pre-offset) position is the lerp of scatteredPosition and assembledPosition
at that eased value: the Foliage vertex position is that lerp plus the wind
offset, and the BottomParticles vertex position is that lerp plus the rise
offset scaled by the eased value. -/
theorem shader_easing_and_base_lerp
    (s a : Vec3) (aRandom aSpeed uTime q : ℝ) :
    (easeInOutCubic q =
      if q < 0.5 then 4 * q ^ 3 else 1 - (-2 * q + 2) ^ 3 / 2) ∧
    foliageVertexPos s a aRandom uTime q =
      Vec3.add (vlerp s a (easeInOutCubic q)) (foliageWind aRandom uTime q) ∧
    starVertexFinalPos s a aRandom aSpeed uTime q =
      Vec3.add (vlerp s a (easeInOutCubic q))
        (Vec3.mk 0
          (easeInOutCubic q * glslMod (uTime * aSpeed * 2 + aRandom * 10) 4)
          0) := by
  refine ⟨?_, ?_, ?_⟩
  · unfold easeInOutCubic
    split
    · ring
    · ring
  · simp only [foliageVertexPos, foliageWind, Vec3.add, vlerp, lerpR]
    ext <;> ring
  · simp only [starVertexFinalPos, Vec3.add, vlerp, lerpR]
    ext <;> ring

/-- A per-frame instance transform: position, Euler rotation, uniform
scale, as composed by Object3D before updateMatrix. -/
structure Transform3 where
  position : Vec3
  rotation : Vec3
  scale : ℝ

/-- Per-gift data built once in BottomGifts.tsx. -/
structure GiftItem where
  treePos : Vec3
  scatterPos : Vec3
  rotationY : ℝ
  scale : ℝ
  phase : ℝ
  speed : ℝ

/-- The transform written for one gift instance by the BottomGifts.tsx
useFrame body, given the damped progress t and the elapsed time. -/
noncomputable def giftFrame (item : GiftItem) (t time : ℝ) : Transform3 :=
  let base := vlerp item.scatterPos item.treePos t
  if t < 0.99 then
    let floatAmp := (1 - t) * 2
    let tumbleSpeed := item.speed * 0.25
    { position := Vec3.mk
        (base.x + Real.cos (time * 0.5 * item.speed + item.phase) * floatAmp * 0.5)
        (base.y + Real.sin (time * item.speed + item.phase) * floatAmp)
        base.z
      rotation := Vec3.mk
        (time * tumbleSpeed * (1 - t))
        (time * tumbleSpeed * (1 - t) + item.rotationY)
        (time * tumbleSpeed * (1 - t))
      scale := item.scale * (0.95 + 0.05 * Real.sin (time + item.phase)) }
  else
    { position := base
      rotation := Vec3.mk 0 item.rotationY 0
      scale := item.scale * (0.95 + 0.05 * Real.sin (time + item.phase)) }

/-- The four ornament population kinds of the ornament group component. -/
inductive OrnamentKind
  | sphere
  | box
  | star
  | diamond
deriving DecidableEq

/-- Per-ornament data built once by the ornament group component. -/
structure OrnamentItem where
  treePos : Vec3
  scatterPos : Vec3
  rotation : Vec3
  scale : ℝ
  speed : ℝ
  phase : ℝ

/-- The transform written for one ornament instance by the ornament group
useFrame body, given the damped progress t and the elapsed time. -/
noncomputable def ornamentFrame (kind : OrnamentKind) (item : OrnamentItem)
    (t time : ℝ) : Transform3 :=
  let base := vlerp item.scatterPos item.treePos t
  let floatAmp := (1 - t) * (if kind = OrnamentKind.star then 3.0 else 1.5)
  let yOffset := Real.sin (time * item.speed + item.phase) * floatAmp
  let xOffset := Real.cos (time * item.speed * 0.5 + item.phase) * floatAmp * 0.5
  let spinSpeed : ℝ :=
    if kind = OrnamentKind.diamond ∨ kind = OrnamentKind.star then 0.5 else 0.1
  { position := Vec3.mk (base.x + xOffset) (base.y + yOffset) base.z
    rotation := Vec3.mk
      (item.rotation.x + time * 0.2 * (1 - t) * item.speed)
      (item.rotation.y + time * spinSpeed * item.speed)
      (item.rotation.z + time * 0.1 * (1 - t))
    scale := item.scale * (0.85 + 0.15 * Real.sin (time * 2 + item.phase)) }

/-- Counterexample to C1 as stated: in the shader path at progress exactly
0, the computed per-frame render position does not equal the scattered
position, because the wind offset (amplitude 0.8 at t = 0) is added; at
entity randomness 0, scatter = tree = origin and time = pi, the rendered x
coordinate is sin(pi/2) * 0.8 = 0.8, not 0. -/
theorem foliage_render_differs_from_scatter_at_zero :
    (foliageVertexPos (Vec3.mk 0 0 0) (Vec3.mk 0 0 0) 0 Real.pi 0).x ≠
      (Vec3.mk 0 0 0).x := by
  have h0 : easeInOutCubic 0 = 0 := by
    rw [easeInOutCubic, if_pos (by norm_num)]
    ring
  have hx : (foliageVertexPos (Vec3.mk 0 0 0) (Vec3.mk 0 0 0) 0 Real.pi 0).x =
      Real.sin (Real.pi * lerpR 0.5 2.5 (easeInOutCubic 0) + 0 * 10) *
        lerpR 0.8 0.15 (easeInOutCubic 0) := by
    simp only [foliageVertexPos, vlerp, lerpR]
    ring
  rw [hx, h0]
  have harg : Real.pi * lerpR 0.5 2.5 0 + 0 * 10 = Real.pi / 2 := by
    simp only [lerpR]
    ring
  rw [harg, Real.sin_pi_div_two]
  simp only [lerpR]
  norm_num

/-- Claim C1 (amended): at progress exactly 0 the interpolated base
position (before the additive procedural offsets) equals the scattered
position, and at progress exactly 1 it equals the assembled position, under
both the eased shader interpolation and the linear rigid interpolation;
moreover the full rigid-path transforms at progress 1 place the instance
exactly at the assembled position, and the BottomParticles shader at
progress 0 places the point exactly at the scattered position. -/
theorem morph_base_boundary (s a : Vec3) (aRandom aSpeed time : ℝ)
    (item : GiftItem) (kind : OrnamentKind) (oitem : OrnamentItem) :
    vlerp s a (easeInOutCubic 0) = s ∧
    vlerp s a (easeInOutCubic 1) = a ∧
    vlerp s a 0 = s ∧
    vlerp s a 1 = a ∧
    (giftFrame item 1 time).position = item.treePos ∧
    (ornamentFrame kind oitem 1 time).position = oitem.treePos ∧
    starVertexFinalPos s a aRandom aSpeed time 0 = s := by
  have h0 : easeInOutCubic 0 = 0 := by
    rw [easeInOutCubic, if_pos (by norm_num)]
    ring
  have h1 : easeInOutCubic 1 = 1 := by
    rw [easeInOutCubic, if_neg (by norm_num)]
    norm_num
  have hl0 : ∀ u v : Vec3, vlerp u v 0 = u := by
    intro u v
    ext <;> simp [vlerp, lerpR]
  have hl1 : ∀ u v : Vec3, vlerp u v 1 = v := by
    intro u v
    ext <;> simp [vlerp, lerpR]
  refine ⟨by rw [h0]; exact hl0 s a, by rw [h1]; exact hl1 s a,
    hl0 s a, hl1 s a, ?_, ?_, ?_⟩
  · rw [giftFrame, if_neg (by norm_num)]
    exact hl1 item.scatterPos item.treePos
  · simp only [ornamentFrame]
    ext <;> simp [vlerp, lerpR]
  · simp only [starVertexFinalPos, h0]
    ext <;> simp [vlerp, lerpR]

/-- Claim C3: in the instanced rigid path, the base position is the lerp of
scatteredPosition and assembledPosition taken linearly on the raw damped
scalar t: the full gift and ornament positions equal that linear lerp plus
the float offsets, and no easing curve is applied, unlike the shader path,
whose eased lerp differs from the linear one at t = 1/4. -/
theorem rigid_base_linear_no_easing (item : GiftItem) (kind : OrnamentKind)
    (oitem : OrnamentItem) (t time : ℝ) :
    (giftFrame item t time).position =
      Vec3.add (vlerp item.scatterPos item.treePos t)
        (if t < 0.99 then
          Vec3.mk
            (Real.cos (time * 0.5 * item.speed + item.phase) * ((1 - t) * 2) * 0.5)
            (Real.sin (time * item.speed + item.phase) * ((1 - t) * 2))
            0
         else Vec3.mk 0 0 0) ∧
    (ornamentFrame kind oitem t time).position =
      Vec3.add (vlerp oitem.scatterPos oitem.treePos t)
        (Vec3.mk
          (Real.cos (time * oitem.speed * 0.5 + oitem.phase) *
            ((1 - t) * (if kind = OrnamentKind.star then 3.0 else 1.5)) * 0.5)
          (Real.sin (time * oitem.speed + oitem.phase) *
            ((1 - t) * (if kind = OrnamentKind.star then 3.0 else 1.5)))
          0) ∧
    vlerp (Vec3.mk 0 0 0) (Vec3.mk 1 0 0) (1 / 4) ≠
      vlerp (Vec3.mk 0 0 0) (Vec3.mk 1 0 0) (easeInOutCubic (1 / 4)) := by
  refine ⟨?_, ?_, ?_⟩
  · by_cases ht : t < 0.99
    · rw [giftFrame, if_pos ht, if_pos ht]
      ext <;> simp [Vec3.add, vlerp, lerpR]
    · rw [giftFrame, if_neg ht, if_neg ht]
      ext <;> simp [Vec3.add, vlerp, lerpR]
  · simp only [ornamentFrame]
    ext <;> simp [Vec3.add, vlerp, lerpR]
  · have he : easeInOutCubic (1 / 4 : ℝ) = 1 / 16 := by
      rw [easeInOutCubic, if_pos (by norm_num)]
      norm_num
    rw [he]
    intro h
    have hc := congrArg Vec3.x h
    simp only [vlerp, lerpR] at hc
    norm_num at hc

/-- Counterexample to C5 as stated: an ornament-group instance with damped
progress 1 (which is at least 0.99), initial Euler x angle 1, speed 1 and
elapsed time 0 reports rotation (1, 0, 0), not the claimed resting rotation
(0, restingYaw, 0) = (0, 0, 0): the ornament group never snaps its tumble
off, it only scales the x and z rates by (1 - t) towards the initial Euler
offsets. -/
theorem ornament_rotation_not_resting_at_settled :
    (0.99 : ℝ) ≤ 1 ∧
    (ornamentFrame OrnamentKind.sphere
      (OrnamentItem.mk (Vec3.mk 0 0 0) (Vec3.mk 0 0 0) (Vec3.mk 1 0 0) 1 1 0)
      1 0).rotation ≠
      Vec3.mk 0
        (OrnamentItem.mk (Vec3.mk 0 0 0) (Vec3.mk 0 0 0) (Vec3.mk 1 0 0) 1 1 0).rotation.y
        0 := by
  refine ⟨by norm_num, ?_⟩
  intro h
  have hc := congrArg Vec3.x h
  simp only [ornamentFrame] at hc
  norm_num at hc

/-- Claim C5 (amended): for every BottomGifts instanced entity, whenever
the damped progress is at least 0.99, the rotation for that frame is
exactly (0, restingYaw, 0); the ornament-group populations are excluded,
as they keep a continuous yaw spin and approach their fixed initial Euler
x offset instead of zero. -/
theorem gift_rotation_settles (item : GiftItem) (t time : ℝ)
    (h : 0.99 ≤ t) :
    (giftFrame item t time).rotation = Vec3.mk 0 item.rotationY 0 := by
  rw [giftFrame, if_neg (not_lt.mpr h)]

/-- Witness for the amended C5 at a concrete gift, progress 1, time 0. -/
theorem gift_rotation_settles_witness :
    (0.99 : ℝ) ≤ 1 ∧
    (giftFrame (GiftItem.mk (Vec3.mk 0 0 0) (Vec3.mk 0 0 0) 2 1 0 1)
      1 0).rotation = Vec3.mk 0 2 0 :=
  ⟨by norm_num,
    gift_rotation_settles (GiftItem.mk (Vec3.mk 0 0 0) (Vec3.mk 0 0 0) 2 1 0 1)
      1 0 (by norm_num)⟩

/-- Counterexample to C7 as stated: an ornament-group instance with base
scale 1, phase 0, at time 0, has frame scale 1 * (0.85 + 0.15 * sin 0)
= 0.85, not the claimed 1 * (0.95 + 0.05 * sin(0 + 0)) = 0.95; the
ornament group uses the pulse 0.85 + 0.15 * sin(2 * time + phase). -/
theorem ornament_scale_pulse_differs :
    (ornamentFrame OrnamentKind.sphere
      (OrnamentItem.mk (Vec3.mk 0 0 0) (Vec3.mk 0 0 0) (Vec3.mk 0 0 0) 1 1 0)
      0 0).scale ≠
      1 * (0.95 + 0.05 * Real.sin (0 + 0)) := by
  simp only [ornamentFrame]
  norm_num

/-- Claim C7 (amended): every BottomGifts instance scale equals the base
scale times (0.95 + 0.05 * sin(time + phase)), at every frame and every
progress value; the ornament-group instances instead use the base scale
times (0.85 + 0.15 * sin(2 * time + phase)). -/
theorem instance_scale_pulse_formulas (item : GiftItem) (kind : OrnamentKind)
    (oitem : OrnamentItem) (t time : ℝ) :
    (giftFrame item t time).scale =
      item.scale * (0.95 + 0.05 * Real.sin (time + item.phase)) ∧
    (ornamentFrame kind oitem t time).scale =
      oitem.scale * (0.85 + 0.15 * Real.sin (time * 2 + oitem.phase)) := by
  constructor
  · by_cases ht : t < 0.99
    · rw [giftFrame, if_pos ht]
    · rw [giftFrame, if_neg ht]
  · rfl

/-- Modelled from the spec: the per-frame progress update calls damp from
the external maath/easing package, whose source is not part of this
repository. Spec section 4.3 describes the missing implementation as an
exponential smoothing step by which current asymptotically approaches
goal; one update with time step dt and time constant tau moves current
toward goal by the factor 1 - exp(-dt / tau). -/
noncomputable def dampStep (current goal timeConstant dt : ℝ) : ℝ :=
  current + (goal - current) * (1 - Real.exp (-dt / timeConstant))

/-- The sequence of progress values produced by repeated dampStep updates
with a fixed goal, time constant and time step, starting from current. -/
noncomputable def dampIter (current goal timeConstant dt : ℝ) : ℕ → ℝ
  | 0 => current
  | n + 1 => dampStep (dampIter current goal timeConstant dt n) goal timeConstant dt

/-- Closed form of the damped sequence: the gap to the goal decays
geometrically with ratio exp(-dt / tau). -/
theorem dampIter_closed (c g tau dt : ℝ) (n : ℕ) :
    dampIter c g tau dt n = g + (c - g) * Real.exp (-dt / tau) ^ n := by
  induction n with
  | zero => simp only [dampIter, pow_zero]; ring
  | succ n ih =>
    simp only [dampIter, dampStep, ih]
    ring

/-- Claim C4: for every initial current in [0,1], every goal in {0,1},
and every positive time constant, repeated progress-controller updates
with a fixed time step dt > 0 produce a monotone sequence of current
values (increasing when current starts at or below the goal, decreasing
when it starts at or above it) that tends to the goal and never passes
it; and an update with dt = 0 leaves current unchanged. -/
theorem damp_monotone_no_overshoot_convergence (c g tau dt : ℝ)
    (htau : 0 < tau) (hdt : 0 < dt) (hc0 : 0 ≤ c) (hc1 : c ≤ 1)
    (hg : g = 0 ∨ g = 1) :
    (c ≤ g → Monotone (dampIter c g tau dt) ∧ ∀ n, dampIter c g tau dt n ≤ g) ∧
    (g ≤ c → Antitone (dampIter c g tau dt) ∧ ∀ n, g ≤ dampIter c g tau dt n) ∧
    Filter.Tendsto (dampIter c g tau dt) Filter.atTop (nhds g) ∧
    dampStep c g tau 0 = c := by
  have hq0 : 0 < Real.exp (-dt / tau) := Real.exp_pos _
  have hq1 : Real.exp (-dt / tau) < 1 := by
    rw [Real.exp_lt_one_iff, neg_div, neg_lt_zero]
    exact div_pos hdt htau
  have hpow : ∀ n : ℕ, Real.exp (-dt / tau) ^ (n + 1) ≤ Real.exp (-dt / tau) ^ n :=
    fun n => pow_le_pow_of_le_one (le_of_lt hq0) (le_of_lt hq1) (Nat.le_succ n)
  have hpow0 : ∀ n : ℕ, 0 ≤ Real.exp (-dt / tau) ^ n :=
    fun n => pow_nonneg (le_of_lt hq0) n
  have hpow1 : ∀ n : ℕ, Real.exp (-dt / tau) ^ n ≤ 1 :=
    fun n => pow_le_one₀ (le_of_lt hq0) (le_of_lt hq1)
  refine ⟨?_, ?_, ?_, ?_⟩
  · intro hcg
    constructor
    · apply monotone_nat_of_le_succ
      intro n
      rw [dampIter_closed, dampIter_closed]
      have := mul_le_mul_of_nonpos_left (hpow n) (sub_nonpos.mpr hcg)
      linarith
    · intro n
      rw [dampIter_closed]
      have := mul_nonpos_of_nonpos_of_nonneg (sub_nonpos.mpr hcg) (hpow0 n)
      linarith
  · intro hgc
    constructor
    · apply antitone_nat_of_succ_le
      intro n
      rw [dampIter_closed, dampIter_closed]
      have := mul_le_mul_of_nonneg_left (hpow n) (sub_nonneg.mpr hgc)
      linarith
    · intro n
      rw [dampIter_closed]
      have := mul_nonneg (sub_nonneg.mpr hgc) (hpow0 n)
      linarith
  · have hlim : Filter.Tendsto (fun n : ℕ => Real.exp (-dt / tau) ^ n)
        Filter.atTop (nhds 0) :=
      tendsto_pow_atTop_nhds_zero_of_lt_one (le_of_lt hq0) hq1
    have hlim2 : Filter.Tendsto (fun n : ℕ => g + (c - g) * Real.exp (-dt / tau) ^ n)
        Filter.atTop (nhds (g + (c - g) * 0)) :=
      Filter.Tendsto.const_add g (Filter.Tendsto.const_mul (c - g) hlim)
    rw [mul_zero, add_zero] at hlim2
    exact hlim2.congr (fun n => (dampIter_closed c g tau dt n).symm)
  · simp [dampStep]

/-- Witness for C4 at current 1/2, goal 1, time constant 3/2, step 1/100. -/
theorem damp_monotone_no_overshoot_convergence_witness :
    ((1 : ℝ) / 2 ≤ 1 →
      Monotone (dampIter (1 / 2) 1 (3 / 2) (1 / 100)) ∧
      ∀ n, dampIter (1 / 2) 1 (3 / 2) (1 / 100) n ≤ 1) ∧
    ((1 : ℝ) ≤ 1 / 2 →
      Antitone (dampIter (1 / 2) 1 (3 / 2) (1 / 100)) ∧
      ∀ n, 1 ≤ dampIter (1 / 2) 1 (3 / 2) (1 / 100) n) ∧
    Filter.Tendsto (dampIter (1 / 2) 1 (3 / 2) (1 / 100))
      Filter.atTop (nhds 1) ∧
    dampStep (1 / 2) 1 (3 / 2) 0 = 1 / 2 :=
  damp_monotone_no_overshoot_convergence (1 / 2) 1 (3 / 2) (1 / 100)
    (by norm_num) (by norm_num) (by norm_num) (by norm_num) (Or.inr rfl)

/-- Per-instance data built by the ornament group component for one
entity: kind-dependent base scale and weight, then randomized positions
and motion parameters. The function d maps draw indices to the successive
Math.random() results consumed for this entity. -/
noncomputable def mkOrnamentItem (kind : OrnamentKind) (d : ℕ → ℝ) :
    OrnamentItem :=
  let weight : ℝ :=
    match kind with
    | OrnamentKind.box => 0.2
    | OrnamentKind.sphere => 0.5
    | OrnamentKind.star => 0.9
    | OrnamentKind.diamond => 0.6
  let scaleBase : ℝ :=
    match kind with
    | OrnamentKind.box => 0.45
    | OrnamentKind.sphere => if 0.8 < d 0 then 0.45 else 0.25
    | OrnamentKind.star => 0.15
    | OrnamentKind.diamond => 0.35
  let scaleVar := d 1 * 0.15
  { treePos := getTreePosition (d 2) (d 3) (d 4)
    scatterPos := getScatterPosition (d 5) (d 6) (d 7)
    rotation := Vec3.mk (d 8 * Real.pi) (d 9 * Real.pi) 0
    scale := scaleBase + scaleVar
    speed := (0.2 + d 10 * 0.8) * (1 + weight)
    phase := d 11 * (Real.pi * 2) }

/-- The ornament group data construction: the loop for i from 0 while
i < count pushes one item per iteration; rand i gives the draws consumed
by iteration i. A count that is not positive runs the loop zero times. -/
noncomputable def ornamentData (kind : OrnamentKind) (count : ℤ)
    (rand : ℕ → ℕ → ℝ) : List OrnamentItem :=
  (List.range count.toNat).map (fun i => mkOrnamentItem kind (rand i))

/-- Counterexample to C8 as stated: constructing the ornament population
with entity count 0 does not fail fast with a configuration error — the
construction is a total function with no error path, and it silently
returns the empty population. -/
theorem ornamentData_zero_count_silent_empty :
    ornamentData OrnamentKind.sphere 0 (fun _ _ => 0) = [] := by
  simp [ornamentData]

/-- Claim C8 (amended): constructing a population with an entity count at
most 0 silently yields an empty population; the code performs no count
validation and raises no configuration error (entity counts are
hard-coded positive constants at every call site). -/
theorem ornamentData_nonpos_count_empty (kind : OrnamentKind) (count : ℤ)
    (rand : ℕ → ℕ → ℝ) (h : count ≤ 0) :
    ornamentData kind count rand = [] := by
  simp [ornamentData, Int.toNat_of_nonpos h]

/-- Witness for the amended C8 at count -3. -/
theorem ornamentData_nonpos_count_empty_witness :
    (-3 : ℤ) ≤ 0 ∧
    ornamentData OrnamentKind.box (-3) (fun _ _ => 0) = [] :=
  ⟨by decide,
    ornamentData_nonpos_count_empty OrnamentKind.box (-3) (fun _ _ => 0)
      (by decide)⟩
